import Mathlib

/-!
Verification of the thyme immediate-mode GUI core against its specification.

The development shallowly embeds the Rust sources `src/context.rs` and
`src/widget.rs`.  Machine floats (`f32`) are embedded as rationals: every
arithmetic operation appearing in the embedded code (add, subtract, divide by
two, round) is exact on the inputs exercised here.  The geometry primitive
types (`Point`, `Border`, `Align`, `Layout`, `WidthRelative`,
`HeightRelative`, `FontSummary`, `Color`, `AnimState`) live in files of the
repository outside `src/` (`lib.rs` and the theme modules); they are modelled
from the spec's data model, with constructor names pinned by the `match` arms
of `src/widget.rs`.
-/

set_option maxHeartbeats 1000000

namespace Thyme

/-- Modelled from the spec: `Point {x, y}`, a float pair with componentwise
arithmetic (`lib.rs` is not under `src/`).  Floats are embedded as `ℚ`. -/
structure Point where
  x : ℚ
  y : ℚ
deriving DecidableEq

instance : Add Point := ⟨fun a b => ⟨a.x + b.x, a.y + b.y⟩⟩

instance : Sub Point := ⟨fun a b => ⟨a.x - b.x, a.y - b.y⟩⟩

@[simp] theorem Point.add_def (a b : Point) : a + b = ⟨a.x + b.x, a.y + b.y⟩ := rfl

@[simp] theorem Point.sub_def (a b : Point) : a - b = ⟨a.x - b.x, a.y - b.y⟩ := rfl

/-- Rust `f32::round`: round to nearest integer, ties away from zero. -/
def roundAway (q : ℚ) : ℚ :=
  if q < 0 then -(((⌊-q + 1/2⌋ : ℤ) : ℚ)) else ((⌊q + 1/2⌋ : ℤ) : ℚ)

/-- Modelled from the spec: `Point::round` is componentwise rounding to the
nearest integer. -/
def Point.round (p : Point) : Point := ⟨roundAway p.x, roundAway p.y⟩

/-- Modelled from the spec: `Border {left, right, top, bot}`. -/
structure Border where
  left : ℚ
  right : ℚ
  top : ℚ
  bot : ℚ
deriving DecidableEq

def Border.horizontal (b : Border) : ℚ := b.left + b.right

def Border.vertical (b : Border) : ℚ := b.top + b.bot

/-- Modelled from the spec: the nine alignment anchors. -/
inductive Align where
  | TopLeft | Top | TopRight | Left | Center | Right | BotLeft | Bot | BotRight
deriving DecidableEq

/-- Modelled from the spec: child flow mode. -/
inductive Layout where
  | Horizontal | Vertical | Free
deriving DecidableEq

/-- Modelled from the spec: width resolution policy. -/
inductive WidthRelative where
  | Normal | Parent
deriving DecidableEq

/-- Modelled from the spec: height resolution policy. -/
inductive HeightRelative where
  | Normal | Parent | FontLine
deriving DecidableEq

/-- Modelled from the spec: a font summary carries at least its line height. -/
structure FontSummary where
  line_height : ℚ
deriving DecidableEq

/-- Modelled from the spec: an RGBA color; carried, never inspected, by the
core. -/
structure Color where
  r : ℚ
  g : ℚ
  b : ℚ
  a : ℚ
deriving DecidableEq

/-- Modelled from the spec: animation-state bitset keys. -/
inductive AnimStateKey where
  | Normal | Hover | Pressed | Active | Disabled
deriving DecidableEq

/-- Modelled from the spec: `AnimState`, a set of `AnimStateKey`s. -/
structure AnimState where
  keys : List AnimStateKey
deriving DecidableEq

def AnimState.normal : AnimState := ⟨[]⟩

def AnimState.disabled : AnimState := ⟨[AnimStateKey.Disabled]⟩

def AnimState.contains (a : AnimState) (k : AnimStateKey) : Bool := a.keys.contains k

def AnimState.add (a : AnimState) (k : AnimStateKey) : AnimState := ⟨k :: a.keys⟩

/-! ## Persistent state (src/context.rs) -/

/-- `PersistentState` from `src/context.rs`. -/
structure PersistentState where
  is_open : Bool
  resize : Point
  moved : Point
  scroll : Point
  base_time_millis : ℕ
  characters : List Char
  text : Option String
deriving DecidableEq

/-- `impl Default for PersistentState` from `src/context.rs`. -/
def PersistentState.default : PersistentState :=
  { is_open := true
    resize := ⟨0, 0⟩
    moved := ⟨0, 0⟩
    scroll := ⟨0, 0⟩
    base_time_millis := 0
    characters := []
    text := none }

/-- `ContextInternal` from `src/context.rs`.  The `themes : ThemeSet` field
(an external collaborator) and the `start_instant : Instant` wall-clock field
are omitted: no claim depends on them.  The `HashMap<String, PersistentState>`
is embedded as a partial function `String → Option PersistentState`. -/
structure ContextInternal where
  mouse_taken_last_frame : Option String
  mouse_pressed_outside : Fin 3 → Bool
  keyboard_focus_widget : Option String
  persistent_state : String → Option PersistentState
  empty_persistent_state : PersistentState
  last_mouse_pos : Point
  mouse_pos : Point
  mouse_pressed : Fin 3 → Bool
  mouse_clicked : Fin 3 → Bool
  display_size : Point
  time_millis : ℕ

/-- `ContextInternal::state` from `src/context.rs`: a read returning either
the stored entry or the shared empty-state singleton.  It takes `&self` in the
source, so the store cannot be modified by it. -/
def ContextInternal.state (c : ContextInternal) (id : String) : PersistentState :=
  match c.persistent_state id with
  | none => c.empty_persistent_state
  | some st => st

/-- `Context::new` from `src/context.rs` (the fields embedded here). -/
def ContextInternal.new (display_size : Point) : ContextInternal :=
  { display_size := display_size
    persistent_state := fun _ => none
    empty_persistent_state := PersistentState.default
    mouse_pos := ⟨0, 0⟩
    last_mouse_pos := ⟨0, 0⟩
    mouse_pressed := fun _ => false
    mouse_clicked := fun _ => false
    mouse_taken_last_frame := none
    mouse_pressed_outside := fun _ => false
    time_millis := 0
    keyboard_focus_widget := none }

/-- `Context::set_mouse_pressed` from `src/context.rs`.  The four steps are
threaded sequentially through intermediate states, exactly as the source
mutates `internal` in place. -/
def ContextInternal.set_mouse_pressed (c : ContextInternal) (pressed : Bool) (index : ℕ) :
    ContextInternal :=
  if h : 3 ≤ index then c
  else
    let i : Fin 3 := ⟨index, by omega⟩
    let c1 :=
      if pressed = true ∧ c.mouse_taken_last_frame = none then
        { c with mouse_pressed_outside := fun j => if j = i then true else c.mouse_pressed_outside j }
      else c
    let c2 :=
      if pressed = false ∧ c1.mouse_pressed_outside i = true then
        { c1 with mouse_pressed_outside := fun j => if j = i then false else c1.mouse_pressed_outside j }
      else c1
    let c3 :=
      if c2.mouse_pressed i = true ∧ pressed = false then
        { c2 with mouse_clicked := fun j => if j = i then true else c2.mouse_clicked j,
                  keyboard_focus_widget := none }
      else c2
    { c3 with mouse_pressed := fun j => if j = i then pressed else c3.mouse_pressed j }

/-- `Context::push_character` from `src/context.rs`: route the character to
the focused widget's persistent entry (`state_mut` inserts a default entry if
absent, then pushes), or silently drop it when no widget holds focus. -/
def ContextInternal.push_character (c : ContextInternal) (ch : Char) : ContextInternal :=
  match c.keyboard_focus_widget with
  | none => c
  | some id =>
      let st := (c.persistent_state id).getD PersistentState.default
      let st2 := { st with characters := st.characters ++ [ch] }
      { c with persistent_state := fun k => if k = id then some st2 else c.persistent_state k }

/-- A concrete context used by witnesses. -/
def testContext : ContextInternal :=
  { (ContextInternal.new ⟨800, 600⟩) with
    mouse_pressed := fun _ => true }

/-! ## Claims on the Context -/

/-- C1: mouse-press arbitration on each raw press/release event for an
in-range button follows the spec's four steps: on press with no widget having
claimed the mouse last frame, the pressed-outside flag for the button is set;
on release the pressed-outside flag is cleared; a release while previously
pressed sets the clicked flag and unconditionally clears the keyboard-focus
owner; and in every case the new up/down state is recorded as the button's
press state. -/
theorem claim_C1_mouse_arbitration (c : ContextInternal) (pressed : Bool) (index : ℕ)
    (h : index < 3) :
    ((pressed = true ∧ c.mouse_taken_last_frame = none) →
      (c.set_mouse_pressed pressed index).mouse_pressed_outside ⟨index, h⟩ = true)
    ∧ (pressed = false →
      (c.set_mouse_pressed pressed index).mouse_pressed_outside ⟨index, h⟩ = false)
    ∧ ((c.mouse_pressed ⟨index, h⟩ = true ∧ pressed = false) →
      (c.set_mouse_pressed pressed index).mouse_clicked ⟨index, h⟩ = true
      ∧ (c.set_mouse_pressed pressed index).keyboard_focus_widget = none)
    ∧ (c.set_mouse_pressed pressed index).mouse_pressed ⟨index, h⟩ = pressed := by
  simp only [ContextInternal.set_mouse_pressed, dif_neg (by omega : ¬ 3 ≤ index)]
  cases pressed <;> split_ifs <;> simp_all

/-- Witness for C1 at a concrete input. -/
theorem claim_C1_mouse_arbitration_wit :
    ((false = true ∧ testContext.mouse_taken_last_frame = none) →
      (testContext.set_mouse_pressed false 0).mouse_pressed_outside ⟨0, by decide⟩ = true)
    ∧ (false = false →
      (testContext.set_mouse_pressed false 0).mouse_pressed_outside ⟨0, by decide⟩ = false)
    ∧ ((testContext.mouse_pressed ⟨0, by decide⟩ = true ∧ false = false) →
      (testContext.set_mouse_pressed false 0).mouse_clicked ⟨0, by decide⟩ = true
      ∧ (testContext.set_mouse_pressed false 0).keyboard_focus_widget = none)
    ∧ (testContext.set_mouse_pressed false 0).mouse_pressed ⟨0, by decide⟩ = false :=
  claim_C1_mouse_arbitration testContext false 0 (by decide)

/-- C10: injecting a mouse press or release with a button index of 3 or more
is a complete no-op on the context. -/
theorem claim_C10_out_of_range_noop (c : ContextInternal) (pressed : Bool) (index : ℕ)
    (h : 3 ≤ index) :
    c.set_mouse_pressed pressed index = c := by
  simp only [ContextInternal.set_mouse_pressed, dif_pos h]

/-- Witness for C10 at a concrete input. -/
theorem claim_C10_out_of_range_noop_wit :
    testContext.set_mouse_pressed true 3 = testContext :=
  claim_C10_out_of_range_noop testContext true 3 (by decide)

/-- C7: a typed character is appended to the persistent `characters` queue of
the focused widget id (all other entries and all other context fields are
untouched), and is silently dropped — the context entirely unchanged — when no
widget holds keyboard focus. -/
theorem claim_C7_push_character (c : ContextInternal) (ch : Char) :
    (c.keyboard_focus_widget = none → c.push_character ch = c)
    ∧ (∀ id, c.keyboard_focus_widget = some id →
        ((c.push_character ch).persistent_state id =
          some { (c.persistent_state id).getD PersistentState.default with
                 characters :=
                   ((c.persistent_state id).getD PersistentState.default).characters ++ [ch] })
        ∧ (∀ k, k ≠ id → (c.push_character ch).persistent_state k = c.persistent_state k)
        ∧ (c.push_character ch).keyboard_focus_widget = c.keyboard_focus_widget
        ∧ (c.push_character ch).mouse_pressed = c.mouse_pressed
        ∧ (c.push_character ch).mouse_clicked = c.mouse_clicked
        ∧ (c.push_character ch).mouse_pressed_outside = c.mouse_pressed_outside
        ∧ (c.push_character ch).mouse_taken_last_frame = c.mouse_taken_last_frame
        ∧ (c.push_character ch).empty_persistent_state = c.empty_persistent_state) := by
  constructor
  · intro hnone
    simp only [ContextInternal.push_character, hnone]
  · intro id hid
    constructor
    · simp [ContextInternal.push_character, hid]
    constructor
    · intro k hk
      simp [ContextInternal.push_character, hid, hk]
    · simp [ContextInternal.push_character, hid]

/-- Witness for C7 at a concrete input: `testContext` holds no focus, so the
typed character is dropped and the context is unchanged. -/
theorem claim_C7_push_character_wit :
    testContext.push_character 'a' = testContext :=
  (claim_C7_push_character testContext 'a').1 rfl

/-- C8: reading the persistent state of a path with no stored entry returns
the shared empty-state singleton (initialized to the default state by
`Context::new`) without failing; `state` takes the context immutably, so the
persistent-state map is unchanged by the read. -/
theorem claim_C8_missing_state_read (c : ContextInternal) (id : String)
    (h : c.persistent_state id = none) :
    c.state id = c.empty_persistent_state
    ∧ (∀ ds : Point, (ContextInternal.new ds).empty_persistent_state = PersistentState.default) := by
  constructor
  · simp only [ContextInternal.state, h]
  · intro ds
    rfl

/-- Witness for C8 at a concrete input. -/
theorem claim_C8_missing_state_read_wit :
    testContext.state "nonexistent" = testContext.empty_persistent_state
    ∧ (∀ ds : Point, (ContextInternal.new ds).empty_persistent_state = PersistentState.default) :=
  claim_C8_missing_state_read testContext "nonexistent" rfl

/-! ## Widgets (src/widget.rs) -/

/-- `Widget` from `src/widget.rs`.  The `theme : WidgetThemeHandle` field (an
opaque handle into the external theme set) is omitted: no claim depends on
it. -/
structure Widget where
  raw_pos : Point
  raw_size : Point
  theme_id : String
  text : Option String
  text_color : Color
  wants_mouse : Bool
  text_align : Align
  font : Option FontSummary
  background : Option String
  foreground : Option String
  pos : Point
  size : Point
  width_from : WidthRelative
  height_from : HeightRelative
  id : String
  border : Border
  layout : Layout
  layout_spacing : Point
  child_align : Align
  align : Align
  cursor : Point
  anim_state : AnimState
  hidden : Bool
deriving DecidableEq

/-- A base widget with all-default fields, used to build concrete test
widgets.  Matches `Widget::root` with a zero display size. -/
def baseWidget : Widget :=
  { raw_pos := ⟨0, 0⟩
    raw_size := ⟨0, 0⟩
    theme_id := ""
    text := none
    text_color := ⟨1, 1, 1, 1⟩
    wants_mouse := false
    text_align := Align.TopLeft
    font := none
    background := none
    foreground := none
    pos := ⟨0, 0⟩
    size := ⟨0, 0⟩
    width_from := WidthRelative.Normal
    height_from := HeightRelative.Normal
    id := ""
    border := ⟨0, 0, 0, 0⟩
    layout := Layout.Horizontal
    layout_spacing := ⟨0, 0⟩
    child_align := Align.TopLeft
    align := Align.TopLeft
    cursor := ⟨0, 0⟩
    anim_state := AnimState.normal
    hidden := false }

/-- The free function `size` from `src/widget.rs` (lines 187-206): resolve a
widget's declared size against its parent, border and font. -/
def size (parent : Widget) (sz : Point) (border : Border) (font : Option FontSummary)
    (width_from : WidthRelative) (height_from : HeightRelative) : Point :=
  let x :=
    match width_from with
    | WidthRelative.Normal => sz.x
    | WidthRelative.Parent => sz.x + parent.size.x - parent.border.horizontal
  let y :=
    match height_from with
    | HeightRelative.Normal => sz.y
    | HeightRelative.Parent => sz.y + parent.size.y - parent.border.vertical
    | HeightRelative.FontLine =>
        sz.y + (match font with | none => 0 | some f => f.line_height) + border.vertical
  ⟨x, y⟩

/-- The free function `pos` from `src/widget.rs` (lines 208-262): resolve a
widget's position from its parent's bordered box, its raw position, its own
size and its alignment.  Note the source applies `.round()` to the
self-size-dependent offset only, not to the final result. -/
def pos (parent : Widget) (p : Point) (self_size : Point) (align : Align) : Point :=
  let size := parent.size
  let border := parent.border
  let base := parent.pos +
    match align with
    | Align.Left => (⟨border.left + p.x, border.top + (size.y - border.vertical) / 2 + p.y⟩ : Point)
    | Align.Right => ⟨size.x - border.right - p.x, border.top + (size.y - border.vertical) / 2 + p.y⟩
    | Align.Bot => ⟨border.left + (size.x - border.horizontal) / 2 + p.x, size.y - border.bot - p.y⟩
    | Align.Top => ⟨border.left + (size.x - border.horizontal) / 2 + p.x, border.top + p.y⟩
    | Align.Center =>
        ⟨border.left + (size.x - border.horizontal) / 2 + p.x,
         border.top + (size.y - border.vertical) / 2 + p.y⟩
    | Align.BotLeft => ⟨border.left + p.x, size.y - border.bot - p.y⟩
    | Align.BotRight => ⟨size.x - border.right - p.x, size.y - border.bot - p.y⟩
    | Align.TopLeft => ⟨border.left + p.x, border.top + p.y⟩
    | Align.TopRight => ⟨size.x - border.right - p.x, border.top + p.y⟩
  base -
    (Point.round
      (match align with
      | Align.Left => (⟨0, self_size.y / 2⟩ : Point)
      | Align.Right => ⟨self_size.x, self_size.y / 2⟩
      | Align.Bot => ⟨self_size.x / 2, self_size.y⟩
      | Align.Top => ⟨self_size.x / 2, 0⟩
      | Align.Center => ⟨self_size.x / 2, self_size.y / 2⟩
      | Align.BotLeft => ⟨0, self_size.y⟩
      | Align.BotRight => ⟨self_size.x, self_size.y⟩
      | Align.TopLeft => ⟨0, 0⟩
      | Align.TopRight => ⟨self_size.x, 0⟩))

/-- Stated from the claim's words (refinement comparison for C4): the anchor
point inside the parent's bordered content box, offset by the widget's raw
position. -/
def specAnchorPoint (parent : Widget) (p : Point) (align : Align) : Point :=
  parent.pos +
    match align with
    | Align.Left =>
        (⟨parent.border.left + p.x,
          parent.border.top + (parent.size.y - parent.border.vertical) / 2 + p.y⟩ : Point)
    | Align.Right =>
        ⟨parent.size.x - parent.border.right - p.x,
         parent.border.top + (parent.size.y - parent.border.vertical) / 2 + p.y⟩
    | Align.Bot =>
        ⟨parent.border.left + (parent.size.x - parent.border.horizontal) / 2 + p.x,
         parent.size.y - parent.border.bot - p.y⟩
    | Align.Top =>
        ⟨parent.border.left + (parent.size.x - parent.border.horizontal) / 2 + p.x,
         parent.border.top + p.y⟩
    | Align.Center =>
        ⟨parent.border.left + (parent.size.x - parent.border.horizontal) / 2 + p.x,
         parent.border.top + (parent.size.y - parent.border.vertical) / 2 + p.y⟩
    | Align.BotLeft => ⟨parent.border.left + p.x, parent.size.y - parent.border.bot - p.y⟩
    | Align.BotRight =>
        ⟨parent.size.x - parent.border.right - p.x, parent.size.y - parent.border.bot - p.y⟩
    | Align.TopLeft => ⟨parent.border.left + p.x, parent.border.top + p.y⟩
    | Align.TopRight => ⟨parent.size.x - parent.border.right - p.x, parent.border.top + p.y⟩

/-- Stated from the claim's words (refinement comparison for C4): the
self-size-dependent anchor offset (`Center` subtracts half the widget's width
and height; `TopLeft` subtracts nothing). -/
def specSelfOffset (self_size : Point) (align : Align) : Point :=
  match align with
  | Align.Left => ⟨0, self_size.y / 2⟩
  | Align.Right => ⟨self_size.x, self_size.y / 2⟩
  | Align.Bot => ⟨self_size.x / 2, self_size.y⟩
  | Align.Top => ⟨self_size.x / 2, 0⟩
  | Align.Center => ⟨self_size.x / 2, self_size.y / 2⟩
  | Align.BotLeft => ⟨0, self_size.y⟩
  | Align.BotRight => ⟨self_size.x, self_size.y⟩
  | Align.TopLeft => ⟨0, 0⟩
  | Align.TopRight => ⟨self_size.x, 0⟩

/-- Stated from the claim's words (refinement comparison for C4): position
computed as the claim describes it — anchor point, offset by raw position,
minus the self offset, with the final result rounded to the nearest
integer. -/
def specClaimedPos (parent : Widget) (p : Point) (self_size : Point) (align : Align) : Point :=
  Point.round (specAnchorPoint parent p align - specSelfOffset self_size align)

/-- An 800x600 root widget, as produced by `Widget::root` for that display
size. -/
def root800 : Widget := { baseWidget with size := ⟨800, 600⟩ }

/-- An 801x600 root widget (odd width), exhibiting a half-integral anchor. -/
def root801 : Widget := { baseWidget with size := ⟨801, 600⟩ }

/-! ## Claims on size and position resolution -/

/-- C3: resolved width is raw width, plus the parent's inner width when
`width_from` is `Parent`; resolved height is raw height, plus the parent's
inner height when `height_from` is `Parent`, plus the font line height (0 when
no font is resolved) and the widget's own vertical border when `height_from`
is `FontLine`.  In particular raw size (100, 20) with `FontLine`, border
(2,2,2,2) and font line height 16 resolves to height 40. -/
theorem claim_C3_size_resolution :
    (∀ (parent : Widget) (raw : Point) (bd : Border) (font : Option FontSummary)
        (wf : WidthRelative) (hf : HeightRelative),
      (size parent raw bd font wf hf).x =
        raw.x +
          (match wf with
           | WidthRelative.Normal => 0
           | WidthRelative.Parent => parent.size.x - parent.border.horizontal)
      ∧ (size parent raw bd font wf hf).y =
        raw.y +
          (match hf with
           | HeightRelative.Normal => 0
           | HeightRelative.Parent => parent.size.y - parent.border.vertical
           | HeightRelative.FontLine =>
               (match font with | none => 0 | some f => f.line_height) + bd.vertical))
    ∧ (size baseWidget ⟨100, 20⟩ ⟨2, 2, 2, 2⟩ (some ⟨16⟩) WidthRelative.Normal
        HeightRelative.FontLine).y = 40 := by
  constructor
  · intro parent raw bd font wf hf
    cases wf <;> cases hf <;> cases font <;> constructor <;> simp [size] <;> ring
  · norm_num [size, Border.vertical]

/-- C4 counterexample: the claim says the final resolved position is rounded
to the nearest integer, but the source rounds only the self-size offset.  With
an 801-wide parent and `Center` alignment the resolved x-coordinate is 350.5:
the result differs from the position computed as the claim describes it, and
is not integral. -/
theorem claim_C4_counterexample :
    pos root801 ⟨0, 0⟩ ⟨100, 50⟩ Align.Center ≠
      specClaimedPos root801 ⟨0, 0⟩ ⟨100, 50⟩ Align.Center
    ∧ Point.round (pos root801 ⟨0, 0⟩ ⟨100, 50⟩ Align.Center) ≠
      pos root801 ⟨0, 0⟩ ⟨100, 50⟩ Align.Center := by
  have h1 : pos root801 ⟨0, 0⟩ ⟨100, 50⟩ Align.Center = ⟨701/2, 275⟩ := by
    simp only [pos, root801, baseWidget, Point.round, roundAway, Point.add_def, Point.sub_def,
      Border.horizontal, Border.vertical]
    norm_num
  have h2 : specClaimedPos root801 ⟨0, 0⟩ ⟨100, 50⟩ Align.Center = ⟨351, 275⟩ := by
    simp only [specClaimedPos, specAnchorPoint, specSelfOffset, root801, baseWidget,
      Point.round, roundAway, Point.add_def, Point.sub_def, Border.horizontal, Border.vertical]
    norm_num
  refine ⟨by rw [h1, h2]; simp; norm_num, ?_⟩
  rw [h1]
  simp only [Point.round, roundAway]
  norm_num

/-- C4 (amended): the resolved position is the anchor point for the align
value inside the parent's bordered content box, offset by the widget's raw
position, minus the self-size-dependent anchor offset *rounded to the nearest
integer* — the rounding applies to the subtracted offset only, not to the
final result.  With a root of size (800, 600), `Align::Center`, raw pos (0,0)
and size (100,50) the resolved position is (350, 275). -/
theorem claim_C4_position_resolution :
    (∀ (parent : Widget) (p : Point) (self_size : Point) (align : Align),
      pos parent p self_size align =
        specAnchorPoint parent p align - Point.round (specSelfOffset self_size align))
    ∧ pos root800 ⟨0, 0⟩ ⟨100, 50⟩ Align.Center = ⟨350, 275⟩ := by
  constructor
  · intro parent p self_size align
    cases align <;> rfl
  · simp only [pos, root800, baseWidget, Point.round, roundAway, Point.add_def, Point.sub_def,
      Border.horizontal, Border.vertical]
    norm_num

/-! ## WidgetBuilder (src/widget.rs) -/

/-- `WidgetState` from `src/widget.rs`. -/
structure WidgetState where
  visible : Bool
  hovered : Bool
  pressed : Bool
  clicked : Bool
  dragged : Point
deriving DecidableEq

/-- `WidgetState::hidden` from `src/widget.rs`. -/
def WidgetState.hiddenState : WidgetState :=
  { visible := false, hovered := false, pressed := false, clicked := false, dragged := ⟨0, 0⟩ }

/-- `WidgetState::new` from `src/widget.rs`. -/
def WidgetState.new (anim_state : AnimState) (clicked : Bool) (dragged : Point) : WidgetState :=
  let hp : Bool × Bool :=
    if anim_state.contains AnimStateKey.Pressed then (true, true)
    else if anim_state.contains AnimStateKey.Hover then (true, false)
    else (false, false)
  { visible := true, hovered := hp.1, pressed := hp.2, clicked := clicked, dragged := dragged }

/-- `WidgetBuilder` from `src/widget.rs`.  The source builder holds arena
indices (`frame`, `parent`, `widget`) into the per-frame `Frame`; the frame
arena (`frame.rs` is not under `src/`) is embedded by holding the parent and
in-progress widget values directly.  `store` models `Frame::state`, which per
the spec reads the Persistent State Store entry for the widget's id path
(missing entries read as the default state, 4.1/4.3 of the spec). -/
structure Builder where
  parent : Widget
  widget : Widget
  store : String → PersistentState
  manual_pos : Bool
  visible : Bool
  enabled : Bool
  active : Bool
  recalc_pos_size : Bool

/-- `WidgetBuilder::recalculate_pos_size` from `src/widget.rs` (lines
316-342): recompute size from the raw attributes, then position (using the
just-computed size), folding in the persistent `moved` and `resize` deltas,
and clear the dirty flag. -/
def Builder.recalculate_pos_size (b : Builder) (state : PersistentState) : Builder :=
  let sz := size b.parent b.widget.raw_size b.widget.border b.widget.font
    b.widget.width_from b.widget.height_from
  let w1 := { b.widget with size := sz }
  let p := pos b.parent w1.raw_pos w1.size w1.align
  let w2 := { w1 with pos := p + state.moved }
  let w3 := { w2 with size := w2.size + state.resize }
  { b with widget := w3, recalc_pos_size := false }

/-- The builder configuration calls of `src/widget.rs` exercised by the
claims.  `setId` is the source's `id`, `setFont f` is `font` (with `f = none`
standing for a failed theme font lookup, which leaves the builder unchanged
except for a log line), and the rest keep the source names. -/
inductive ConfigCall where
  | wantsMouse (v : Bool)
  | setId (s : String)
  | textColor (c : Color)
  | textAlign (a : Align)
  | setText (s : String)
  | setFont (f : Option FontSummary)
  | foreground (s : String)
  | background (s : String)
  | childAlign (a : Align)
  | layoutSpacing (p : Point)
  | layout (l : Layout)
  | screenPos (x y : ℚ)
  | setPos (x y : ℚ)
  | setAlign (a : Align)
  | setBorder (bd : Border)
  | setSize (x y : ℚ)
  | widthFrom (w : WidthRelative)
  | heightFrom (h : HeightRelative)
deriving DecidableEq

/-- The effect of each configuration call, from the corresponding setters of
`src/widget.rs` (lines 352-515). -/
def applyCall (c : ConfigCall) (b : Builder) : Builder :=
  match c with
  | ConfigCall.wantsMouse v => { b with widget := { b.widget with wants_mouse := v } }
  | ConfigCall.setId s => { b with widget := { b.widget with id := s }, recalc_pos_size := true }
  | ConfigCall.textColor col => { b with widget := { b.widget with text_color := col } }
  | ConfigCall.textAlign a => { b with widget := { b.widget with text_align := a } }
  | ConfigCall.setText s => { b with widget := { b.widget with text := some s } }
  | ConfigCall.setFont none => b
  | ConfigCall.setFont (some f) =>
      { b with widget := { b.widget with font := some f }, recalc_pos_size := true }
  | ConfigCall.foreground s => { b with widget := { b.widget with foreground := some s } }
  | ConfigCall.background s => { b with widget := { b.widget with background := some s } }
  | ConfigCall.childAlign a => { b with widget := { b.widget with child_align := a } }
  | ConfigCall.layoutSpacing p => { b with widget := { b.widget with layout_spacing := p } }
  | ConfigCall.layout l => { b with widget := { b.widget with layout := l } }
  | ConfigCall.screenPos x y =>
      { b with widget := { b.widget with raw_pos := ⟨x, y⟩, pos := ⟨x, y⟩, align := Align.TopLeft },
               manual_pos := true, recalc_pos_size := false }
  | ConfigCall.setPos x y =>
      { b with widget := { b.widget with raw_pos := ⟨x, y⟩ },
               manual_pos := true, recalc_pos_size := true }
  | ConfigCall.setAlign a =>
      { b with widget := { b.widget with align := a },
               manual_pos := true, recalc_pos_size := true }
  | ConfigCall.setBorder bd =>
      { b with widget := { b.widget with border := bd }, recalc_pos_size := true }
  | ConfigCall.setSize x y =>
      { b with widget := { b.widget with raw_size := ⟨x, y⟩ }, recalc_pos_size := true }
  | ConfigCall.widthFrom w =>
      { b with widget := { b.widget with width_from := w }, recalc_pos_size := true }
  | ConfigCall.heightFrom h =>
      { b with widget := { b.widget with height_from := h }, recalc_pos_size := true }

def applyCalls (cs : List ConfigCall) (b : Builder) : Builder :=
  cs.foldl (fun b c => applyCall c b) b

/-- Which configuration calls mark the geometry-dirty flag
(`recalc_pos_size := true`) in `src/widget.rs` — the spec's
"each setter that can affect geometry marks a dirty flag". -/
def marksDirty (c : ConfigCall) : Bool :=
  match c with
  | ConfigCall.setId _ => true
  | ConfigCall.setFont (some _) => true
  | ConfigCall.setPos _ _ => true
  | ConfigCall.setAlign _ => true
  | ConfigCall.setBorder _ => true
  | ConfigCall.setSize _ _ => true
  | ConfigCall.widthFrom _ => true
  | ConfigCall.heightFrom _ => true
  | _ => false

def isScreenPos (c : ConfigCall) : Bool :=
  match c with
  | ConfigCall.screenPos _ _ => true
  | _ => false

/-- A call that neither marks the dirty flag nor writes geometry directly:
these are the non-geometry-affecting configuration calls. -/
def nonGeometry (c : ConfigCall) : Bool := !(marksDirty c) && !(isScreenPos c)

/-- The result of finalizing a builder: the returned `WidgetState`, the final
widget, the (possibly cursor-advanced) parent, and a ghost count of how many
times `recalculate_pos_size` ran during finalization. -/
structure FinishResult where
  state : WidgetState
  widget : Widget
  parent : Widget
  recalcCount : ℕ
deriving DecidableEq

/-- `WidgetBuilder::finish` from `src/widget.rs` (lines 537-589).
`mouseCheck` stands for the result of `Frame::check_mouse_taken` — `frame.rs`
is not under `src/`, and no claim here depends on its value, so the
mouse-arbitration outcome (clicked flag, animation state, drag delta) is
passed as a parameter. -/
def Builder.finish (b : Builder) (mouseCheck : Bool × AnimState × Point) : FinishResult :=
  if b.visible = false then
    { state := WidgetState.hiddenState, widget := b.widget, parent := b.parent, recalcCount := 0 }
  else
    let state := b.store b.widget.id
    if state.is_open = false then
      { state := WidgetState.hiddenState, widget := { b.widget with hidden := true },
        parent := b.parent, recalcCount := 0 }
    else
      let br : Builder × ℕ :=
        if b.recalc_pos_size then (b.recalculate_pos_size state, 1) else (b, 0)
      let b2 := br.1
      let mres :=
        if b2.enabled && b2.widget.wants_mouse then mouseCheck
        else (false, AnimState.disabled, (⟨0, 0⟩ : Point))
      let anim := if b2.active then mres.2.1.add AnimStateKey.Active else mres.2.1
      let w := { b2.widget with anim_state := anim }
      let ws := WidgetState.new anim mres.1 mres.2.2
      let parentOut :=
        if b2.manual_pos = false then
          let xy : ℚ × ℚ :=
            match b2.parent.child_align with
            | Align.Left => (w.size.x, 0)
            | Align.Right => (-w.size.x, 0)
            | Align.Bot => (0, -w.size.y)
            | Align.Top => (0, w.size.y)
            | Align.Center => (0, 0)
            | Align.BotLeft => (w.size.x, -w.size.y)
            | Align.BotRight => (-w.size.x, -w.size.y)
            | Align.TopLeft => (w.size.x, w.size.y)
            | Align.TopRight => (-w.size.x, w.size.y)
          match b2.parent.layout with
          | Layout.Horizontal =>
              { b2.parent with cursor :=
                  ⟨b2.parent.cursor.x + xy.1 + b2.parent.layout_spacing.x, b2.parent.cursor.y⟩ }
          | Layout.Vertical =>
              { b2.parent with cursor :=
                  ⟨b2.parent.cursor.x, b2.parent.cursor.y + xy.2 + b2.parent.layout_spacing.y⟩ }
          | Layout.Free => b2.parent
        else b2.parent
      { state := ws, widget := w, parent := parentOut, recalcCount := br.2 }

/-- The result of a `children` step: the updated builder, a ghost recalc
count, and whether the child-building closure was invoked. -/
structure ChildrenResult where
  builder : Builder
  recalcCount : ℕ
  ranClosure : Bool

/-- `WidgetBuilder::children` from `src/widget.rs` (lines 518-535).  The
closure `f` builds child widgets into the frame arena between the
parent-index save and restore; it cannot modify this builder's own fields, so
it is not modelled beyond whether it runs. -/
def Builder.childrenStep (b : Builder) : ChildrenResult :=
  let state := b.store b.widget.id
  if state.is_open = false then
    { builder := { b with widget := { b.widget with hidden := true } },
      recalcCount := 0, ranClosure := false }
  else if b.recalc_pos_size then
    { builder := b.recalculate_pos_size state, recalcCount := 1, ranClosure := true }
  else
    { builder := b, recalcCount := 0, ranClosure := true }

/-! ## Helper: the geometry-relevant view of a builder

`finish` resolves the final position and size from a limited set of builder
fields; bundling them lets us show that configuration calls not touching the
bundle cannot influence resolved geometry. -/

/-- All builder fields that `finish` reads when resolving the final position
and size of the widget. -/
structure GeomView where
  parent : Widget
  store : String → PersistentState
  raw_pos : Point
  raw_size : Point
  pos : Point
  size : Point
  border : Border
  font : Option FontSummary
  width_from : WidthRelative
  height_from : HeightRelative
  align : Align
  id : String
  visible : Bool
  recalc_pos_size : Bool

def Builder.geomView (b : Builder) : GeomView :=
  { parent := b.parent
    store := b.store
    raw_pos := b.widget.raw_pos
    raw_size := b.widget.raw_size
    pos := b.widget.pos
    size := b.widget.size
    border := b.widget.border
    font := b.widget.font
    width_from := b.widget.width_from
    height_from := b.widget.height_from
    align := b.widget.align
    id := b.widget.id
    visible := b.visible
    recalc_pos_size := b.recalc_pos_size }

/-- Non-geometry-affecting calls leave the geometry view untouched. -/
theorem geomView_applyCall_nonGeometry (g : ConfigCall) (b : Builder)
    (hg : nonGeometry g = true) :
    (applyCall g b).geomView = b.geomView := by
  cases g with
  | setFont f =>
      cases f with
      | none => rfl
      | some f => simp [nonGeometry, marksDirty] at hg
  | _ => first | rfl | simp [nonGeometry, marksDirty, isScreenPos] at hg

/-- Every configuration call maps equal geometry views to equal geometry
views. -/
theorem geomView_applyCall_congr (c : ConfigCall) (b b' : Builder)
    (h : b.geomView = b'.geomView) :
    (applyCall c b).geomView = (applyCall c b').geomView := by
  simp only [Builder.geomView, GeomView.mk.injEq] at h ⊢
  obtain ⟨h1, h2, h3, h4, h5, h6, h7, h8, h9, h10, h11, h12, h13, h14⟩ := h
  cases c with
  | setFont f => cases f <;> simp_all [applyCall]
  | _ => simp_all [applyCall]

/-- Sequences of configuration calls map equal geometry views to equal
geometry views. -/
theorem geomView_applyCalls_congr (cs : List ConfigCall) (b b' : Builder)
    (h : b.geomView = b'.geomView) :
    (applyCalls cs b).geomView = (applyCalls cs b').geomView := by
  induction cs generalizing b b' with
  | nil => exact h
  | cons c cs ih =>
      simp only [applyCalls, List.foldl_cons] at *
      exact ih _ _ (geomView_applyCall_congr c b b' h)

/-- The resolved position, resolved size and ghost recalc count produced by
`finish` depend only on the geometry view (the mouse-check outcome affects
neither). -/
theorem finish_geom_congr (b b' : Builder) (mc mc' : Bool × AnimState × Point)
    (h : b.geomView = b'.geomView) :
    (b.finish mc).widget.pos = (b'.finish mc').widget.pos
    ∧ (b.finish mc).widget.size = (b'.finish mc').widget.size
    ∧ (b.finish mc).recalcCount = (b'.finish mc').recalcCount := by
  simp only [Builder.geomView, GeomView.mk.injEq] at h
  obtain ⟨h1, h2, h3, h4, h5, h6, h7, h8, h9, h10, h11, h12, h13, h14⟩ := h
  simp only [Builder.finish, Builder.recalculate_pos_size, h1, h2, h3, h4, h5, h6, h7, h8,
    h9, h10, h11, h12, h13, h14]
  split_ifs <;> simp_all

/-- `finish` with a clear dirty flag performs no geometry recomputation: the
widget's position and size pass through unchanged. -/
theorem finish_no_recalc (b : Builder) (mc : Bool × AnimState × Point)
    (h : b.recalc_pos_size = false) :
    (b.finish mc).recalcCount = 0
    ∧ (b.finish mc).widget.pos = b.widget.pos
    ∧ (b.finish mc).widget.size = b.widget.size := by
  simp only [Builder.finish, h]
  split_ifs <;> simp_all

/-- `finish` alone never recomputes geometry more than once. -/
theorem finish_count_le_one (b : Builder) (mc : Bool × AnimState × Point) :
    (b.finish mc).recalcCount ≤ 1 := by
  simp only [Builder.finish]
  split_ifs <;> simp_all

/-- The dirty flag stays set across any sequence of configuration calls that
contains no `screen_pos`. -/
theorem recalc_stays_set (cs : List ConfigCall) (b : Builder)
    (hb : b.recalc_pos_size = true) (hcs : ∀ c ∈ cs, isScreenPos c = false) :
    (applyCalls cs b).recalc_pos_size = true := by
  induction cs generalizing b with
  | nil => exact hb
  | cons c cs ih =>
      simp only [applyCalls, List.foldl_cons] at *
      refine ih (applyCall c b) ?_ (fun d hd => hcs d (List.mem_cons_of_mem _ hd))
      have hc := hcs c (List.mem_cons_self _ _)
      clear ih hcs
      cases c with
      | setFont f => cases f <;> simp [applyCall, hb]
      | screenPos x y => simp [isScreenPos] at hc
      | _ => simp [applyCall, hb]

/-- Configuration calls never touch the builder's `visible` flag. -/
theorem applyCalls_visible (cs : List ConfigCall) (b : Builder) :
    (applyCalls cs b).visible = b.visible := by
  induction cs generalizing b with
  | nil => rfl
  | cons c cs ih =>
      simp only [applyCalls, List.foldl_cons] at *
      rw [ih]
      cases c with
      | setFont f => cases f <;> rfl
      | _ => rfl

/-- A sequence of non-geometry-affecting calls leaves the geometry view
untouched. -/
theorem geomView_applyCalls_nonGeometry (cs : List ConfigCall) (b : Builder)
    (hcs : ∀ c ∈ cs, nonGeometry c = true) :
    (applyCalls cs b).geomView = b.geomView := by
  induction cs generalizing b with
  | nil => rfl
  | cons c cs ih =>
      simp only [applyCalls, List.foldl_cons] at *
      rw [ih (applyCall c b) (fun d hd => hcs d (List.mem_cons_of_mem _ hd))]
      exact geomView_applyCall_nonGeometry c b (hcs c (List.mem_cons_self _ _))

/-- A visible, open builder with a set dirty flag recomputes geometry exactly
once on `finish`. -/
theorem finish_recalc_count_one (b : Builder) (mc : Bool × AnimState × Point)
    (hv : b.visible = true) (ho : (b.store b.widget.id).is_open = true)
    (hr : b.recalc_pos_size = true) :
    (b.finish mc).recalcCount = 1 := by
  simp only [Builder.finish, hv, ho, hr]
  simp

/-! ## Test fixtures for the builder claims -/

/-- A mouse-check outcome (no click, normal animation, no drag), standing in
for `Frame::check_mouse_taken` at concrete inputs. -/
def mc0 : Bool × AnimState × Point := (false, AnimState.normal, ⟨0, 0⟩)

/-- A persistent-state store with every path at the default state
(`is_open = true`). -/
def openStore : String → PersistentState := fun _ => PersistentState.default

/-- A fresh builder as `WidgetBuilder::new` produces one: dirty flag set, not
manually positioned, visible and enabled.  The parent lays children out
vertically with `layout_spacing.y = 5` and `TopLeft` child alignment; the
widget's raw size is (10, 20). -/
def testBuilder : Builder :=
  { parent :=
      { baseWidget with size := ⟨100, 100⟩, layout := Layout.Vertical, layout_spacing := ⟨0, 5⟩ }
    widget := { baseWidget with raw_size := ⟨10, 20⟩, size := ⟨10, 20⟩ }
    store := openStore
    manual_pos := false
    visible := true
    enabled := true
    active := false
    recalc_pos_size := true }

/-- `testBuilder` with a `Center` child alignment on the parent. -/
def centerAlignBuilder : Builder :=
  { testBuilder with
    parent := { testBuilder.parent with child_align := Align.Center } }

/-- A second auto-flow child of raw height 30 under the given parent. -/
def secondChild (p : Widget) : Builder :=
  { testBuilder with
    parent := p
    widget := { baseWidget with raw_size := ⟨10, 30⟩, size := ⟨10, 30⟩ } }

/-! ## Claim C2 -/

/-- C2 counterexample: `screen_pos` does not mark the geometry-dirty flag (per
the spec, the dirty flag is what defines a geometry-affecting setter), yet
inserting it into a call sequence changes the resolved position — and read the
other way, with `screen_pos` counted as geometry-affecting, a sequence
containing it finalizes with zero recomputations instead of exactly one. -/
theorem claim_C2_counterexample :
    marksDirty (ConfigCall.screenPos 5 7) = false
    ∧ ((applyCalls [ConfigCall.screenPos 5 7] testBuilder).finish mc0).widget.pos
        ≠ ((applyCalls [] testBuilder).finish mc0).widget.pos
    ∧ ((applyCalls [ConfigCall.screenPos 5 7] testBuilder).finish mc0).recalcCount = 0 := by
  refine ⟨rfl, ?_, ?_⟩
  · have h1 : ((applyCalls [ConfigCall.screenPos 5 7] testBuilder).finish mc0).widget.pos
        = ⟨5, 7⟩ := by
      simp [applyCalls, applyCall, Builder.finish, testBuilder, baseWidget, openStore,
        PersistentState.default]
    have h2 : ((applyCalls [] testBuilder).finish mc0).widget.pos = ⟨0, 0⟩ := by
      simp [applyCalls, Builder.finish, Builder.recalculate_pos_size, testBuilder, baseWidget,
        openStore, PersistentState.default, size, pos, Point.round, roundAway]
      norm_num
    rw [h1, h2]
    simp
  · simp [applyCalls, applyCall, Builder.finish, testBuilder, baseWidget, openStore,
      PersistentState.default]

/-- C2 (amended): finalizing recomputes geometry at most once per widget per
frame, whether finalization goes through `children` and then `finish` or
through `finish` alone; if the sequence of configuration calls contains no
`screen_pos`, a visible and open widget recomputes exactly once (the dirty
flag is set at builder creation, and `screen_pos` is the only call that
clears it); and configuration calls that do not mark the dirty flag and are
not `screen_pos` (such as setting text color) do not change the resolved
position or size wherever they are inserted. -/
theorem claim_C2_recompute_once :
    (∀ (b : Builder) (mc : Bool × AnimState × Point) (cs : List ConfigCall),
      (applyCalls cs b).childrenStep.recalcCount
        + ((applyCalls cs b).childrenStep.builder.finish mc).recalcCount ≤ 1
      ∧ ((applyCalls cs b).finish mc).recalcCount ≤ 1)
    ∧ (∀ (b : Builder) (mc : Bool × AnimState × Point) (cs : List ConfigCall),
        b.recalc_pos_size = true → b.visible = true →
        (∀ c ∈ cs, isScreenPos c = false) →
        ((applyCalls cs b).store (applyCalls cs b).widget.id).is_open = true →
        ((applyCalls cs b).finish mc).recalcCount = 1)
    ∧ (∀ (b : Builder) (mc : Bool × AnimState × Point) (l1 l2 : List ConfigCall)
        (g : ConfigCall), nonGeometry g = true →
        ((applyCalls (l1 ++ g :: l2) b).finish mc).widget.pos
          = ((applyCalls (l1 ++ l2) b).finish mc).widget.pos
        ∧ ((applyCalls (l1 ++ g :: l2) b).finish mc).widget.size
          = ((applyCalls (l1 ++ l2) b).finish mc).widget.size) := by
  refine ⟨?_, ?_, ?_⟩
  · intro b mc cs
    refine ⟨?_, finish_count_le_one _ _⟩
    simp only [Builder.childrenStep]
    split_ifs with h1 h2
    · simpa using finish_count_le_one _ mc
    · have h3 := finish_no_recalc
        ((applyCalls cs b).recalculate_pos_size
          ((applyCalls cs b).store (applyCalls cs b).widget.id)) mc
        (by simp [Builder.recalculate_pos_size])
      simpa using Nat.le_of_eq h3.1
    · have h3 := finish_no_recalc (applyCalls cs b) mc (by simpa using h2)
      simp [h3.1]
  · intro b mc cs hr hv hcs ho
    exact finish_recalc_count_one _ mc (by rw [applyCalls_visible cs b]; exact hv) ho
      (recalc_stays_set cs b hr hcs)
  · intro b mc l1 l2 g hg
    have hsplit : applyCalls (l1 ++ g :: l2) b = applyCalls l2 (applyCall g (applyCalls l1 b)) := by
      simp [applyCalls, List.foldl_append]
    have hsplit2 : applyCalls (l1 ++ l2) b = applyCalls l2 (applyCalls l1 b) := by
      simp [applyCalls, List.foldl_append]
    rw [hsplit, hsplit2]
    have hview := geomView_applyCalls_congr l2 _ _
      (geomView_applyCall_nonGeometry g (applyCalls l1 b) hg)
    have h := finish_geom_congr _ _ mc mc hview
    exact ⟨h.1, h.2.1⟩

/-- Witness for C2 at a concrete input: a sequence consisting of one
size-setter recomputes geometry exactly once on finish. -/
theorem claim_C2_recompute_once_wit :
    ((applyCalls [ConfigCall.setSize 3 4] testBuilder).finish mc0).recalcCount = 1 :=
  claim_C2_recompute_once.2.1 testBuilder mc0 [ConfigCall.setSize 3 4] rfl rfl
    (by intro c hc; rw [List.mem_singleton.mp hc]; rfl) rfl

/-! ## Claim C9 -/

/-- C9: `screen_pos(x, y)` sets the widget's resolved position to exactly
(x, y) with `TopLeft` alignment and clears the geometry-dirty flag; if only
non-geometry-affecting calls follow, finalization performs no geometry
recomputation, and the persistent `moved`/`resize` deltas are not folded in:
the finished position is exactly (x, y) and the size is untouched, whatever
the store holds. -/
theorem claim_C9_screen_pos (b : Builder) (mc : Bool × AnimState × Point) (x y : ℚ)
    (cs : List ConfigCall) (hcs : ∀ c ∈ cs, nonGeometry c = true) :
    (applyCall (ConfigCall.screenPos x y) b).widget.pos = ⟨x, y⟩
    ∧ (applyCall (ConfigCall.screenPos x y) b).widget.align = Align.TopLeft
    ∧ (applyCall (ConfigCall.screenPos x y) b).recalc_pos_size = false
    ∧ (applyCalls cs (applyCall (ConfigCall.screenPos x y) b)).recalc_pos_size = false
    ∧ ((applyCalls cs (applyCall (ConfigCall.screenPos x y) b)).finish mc).recalcCount = 0
    ∧ ((applyCalls cs (applyCall (ConfigCall.screenPos x y) b)).finish mc).widget.pos = ⟨x, y⟩
    ∧ ((applyCalls cs (applyCall (ConfigCall.screenPos x y) b)).finish mc).widget.size
        = b.widget.size := by
  have hview := geomView_applyCalls_nonGeometry cs (applyCall (ConfigCall.screenPos x y) b) hcs
  have hr : (applyCalls cs (applyCall (ConfigCall.screenPos x y) b)).recalc_pos_size = false := by
    have := congrArg GeomView.recalc_pos_size hview
    simpa [Builder.geomView, applyCall] using this
  have hpos : (applyCalls cs (applyCall (ConfigCall.screenPos x y) b)).widget.pos = ⟨x, y⟩ := by
    have := congrArg GeomView.pos hview
    simpa [Builder.geomView, applyCall] using this
  have hsz : (applyCalls cs (applyCall (ConfigCall.screenPos x y) b)).widget.size
      = b.widget.size := by
    have := congrArg GeomView.size hview
    simpa [Builder.geomView, applyCall] using this
  have hfin := finish_no_recalc (applyCalls cs (applyCall (ConfigCall.screenPos x y) b)) mc hr
  exact ⟨rfl, rfl, rfl, hr, hfin.1, by rw [hfin.2.1, hpos], by rw [hfin.2.2, hsz]⟩

/-- Witness for C9 at a concrete input. -/
theorem claim_C9_screen_pos_wit :
    (applyCall (ConfigCall.screenPos 3 4) testBuilder).widget.pos = ⟨3, 4⟩
    ∧ (applyCall (ConfigCall.screenPos 3 4) testBuilder).widget.align = Align.TopLeft
    ∧ (applyCall (ConfigCall.screenPos 3 4) testBuilder).recalc_pos_size = false
    ∧ (applyCalls [ConfigCall.setText "hi"]
        (applyCall (ConfigCall.screenPos 3 4) testBuilder)).recalc_pos_size = false
    ∧ ((applyCalls [ConfigCall.setText "hi"]
        (applyCall (ConfigCall.screenPos 3 4) testBuilder)).finish mc0).recalcCount = 0
    ∧ ((applyCalls [ConfigCall.setText "hi"]
        (applyCall (ConfigCall.screenPos 3 4) testBuilder)).finish mc0).widget.pos = ⟨3, 4⟩
    ∧ ((applyCalls [ConfigCall.setText "hi"]
        (applyCall (ConfigCall.screenPos 3 4) testBuilder)).finish mc0).widget.size
        = testBuilder.widget.size :=
  claim_C9_screen_pos testBuilder mc0 3 4 [ConfigCall.setText "hi"]
    (by intro c hc; rw [List.mem_singleton.mp hc]; rfl)

/-! ## Claim C5 -/

/-- Signed x-direction of the auto-flow cursor advance as a function of the
parent's child alignment (from the `(x, y)` table in `finish`). -/
def hDir (a : Align) : ℚ :=
  match a with
  | Align.Left | Align.TopLeft | Align.BotLeft => 1
  | Align.Right | Align.TopRight | Align.BotRight => -1
  | Align.Top | Align.Bot | Align.Center => 0

/-- Signed y-direction of the auto-flow cursor advance as a function of the
parent's child alignment. -/
def vDir (a : Align) : ℚ :=
  match a with
  | Align.Top | Align.TopLeft | Align.TopRight => 1
  | Align.Bot | Align.BotLeft | Align.BotRight => -1
  | Align.Left | Align.Right | Align.Center => 0

/-- A manually positioned/aligned builder never advances the parent cursor:
`finish` returns the parent unchanged. -/
theorem finish_manual_parent (b : Builder) (mc : Bool × AnimState × Point)
    (hm : b.manual_pos = true) :
    (b.finish mc).parent = b.parent := by
  simp only [Builder.finish]
  split_ifs <;> simp_all [Builder.recalculate_pos_size]

/-- A visible, open, auto-flow builder advances the parent cursor by the
signed child-align-directed component of the finished widget's size plus the
parent's layout spacing, on the axis selected by the parent's layout. -/
theorem finish_advance_parent (b : Builder) (mc : Bool × AnimState × Point)
    (hv : b.visible = true) (ho : (b.store b.widget.id).is_open = true)
    (hm : b.manual_pos = false) :
    (b.finish mc).parent =
      match b.parent.layout with
      | Layout.Horizontal =>
          { b.parent with cursor :=
              ⟨b.parent.cursor.x + hDir b.parent.child_align * (b.finish mc).widget.size.x
                + b.parent.layout_spacing.x, b.parent.cursor.y⟩ }
      | Layout.Vertical =>
          { b.parent with cursor :=
              ⟨b.parent.cursor.x, b.parent.cursor.y
                + vDir b.parent.child_align * (b.finish mc).widget.size.y
                + b.parent.layout_spacing.y⟩ }
      | Layout.Free => b.parent := by
  simp only [Builder.finish, hv, ho]
  split_ifs with h1 <;>
    cases hca : b.parent.child_align <;> cases hl : b.parent.layout <;>
      simp_all [Builder.recalculate_pos_size, hDir, vDir, Widget.mk.injEq, Point.mk.injEq]

/-- C5 counterexample: in a vertical parent whose child alignment is `Center`,
an auto-flow child of height 20 with spacing 5 advances the cursor to 5, not
by its own size plus spacing (25); and a widget given only an explicit id
still advances the cursor (to 5, not 0) — `id` marks the geometry-dirty flag
but does not mark the widget as manually positioned. -/
theorem claim_C5_counterexample :
    ((centerAlignBuilder.finish mc0).parent.cursor.y = 5
      ∧ (5 : ℚ) ≠ centerAlignBuilder.parent.cursor.y + centerAlignBuilder.widget.size.y + 5)
    ∧ (((applyCall (ConfigCall.setId "explicit") centerAlignBuilder).finish mc0).parent.cursor.y
        = 5
      ∧ (5 : ℚ) ≠ centerAlignBuilder.parent.cursor.y) := by
  refine ⟨⟨?_, by norm_num [centerAlignBuilder, testBuilder, baseWidget]⟩,
    ⟨?_, by norm_num [centerAlignBuilder, testBuilder, baseWidget]⟩⟩
  · simp [Builder.finish, Builder.recalculate_pos_size, centerAlignBuilder, testBuilder,
      baseWidget, openStore, PersistentState.default, size, pos, Point.round, roundAway]
  · simp [applyCall, Builder.finish, Builder.recalculate_pos_size, centerAlignBuilder,
      testBuilder, baseWidget, openStore, PersistentState.default, size, pos, Point.round,
      roundAway]

/-- C5 (amended): a visible, open widget finalized without an explicit
position or alignment advances the parent's cursor by the child-align-directed
signed component of its own size plus the parent's layout spacing — on the x
axis when the parent's layout is Horizontal, the y axis when Vertical, not at
all when Free; for `TopLeft` child alignment the advance equals size plus
spacing.  The advance is skipped for explicitly positioned or aligned widgets
(`manual_pos`), but an explicit id alone does not skip it.  In the vertical
`TopLeft` example with `layout_spacing.y = 5` and child heights 20 and 30, the
parent cursor.y is 25 after the first child and 60 after the second. -/
theorem claim_C5_cursor_advance :
    (∀ (b : Builder) (mc : Bool × AnimState × Point),
      (b.manual_pos = true → (b.finish mc).parent = b.parent)
      ∧ (b.visible = true → (b.store b.widget.id).is_open = true → b.manual_pos = false →
          (b.finish mc).parent =
            match b.parent.layout with
            | Layout.Horizontal =>
                { b.parent with cursor :=
                    ⟨b.parent.cursor.x + hDir b.parent.child_align * (b.finish mc).widget.size.x
                      + b.parent.layout_spacing.x, b.parent.cursor.y⟩ }
            | Layout.Vertical =>
                { b.parent with cursor :=
                    ⟨b.parent.cursor.x, b.parent.cursor.y
                      + vDir b.parent.child_align * (b.finish mc).widget.size.y
                      + b.parent.layout_spacing.y⟩ }
            | Layout.Free => b.parent)
      ∧ (∀ s, (applyCall (ConfigCall.setId s) b).manual_pos = b.manual_pos))
    ∧ ((testBuilder.finish mc0).parent.cursor.y = 25
        ∧ ((secondChild (testBuilder.finish mc0).parent).finish mc0).parent.cursor.y = 60) := by
  constructor
  · intro b mc
    exact ⟨finish_manual_parent b mc, fun hv ho hm => finish_advance_parent b mc hv ho hm,
      fun s => rfl⟩
  · constructor
    · simp [Builder.finish, Builder.recalculate_pos_size, testBuilder, baseWidget, openStore,
        PersistentState.default, size, pos, Point.round, roundAway]
      norm_num
    · have h1 : (testBuilder.finish mc0).parent =
          { testBuilder.parent with cursor := ⟨0, 25⟩ } := by
        simp [Builder.finish, Builder.recalculate_pos_size, testBuilder, baseWidget, openStore,
          PersistentState.default, size, pos, Point.round, roundAway]
        norm_num
      rw [h1]
      simp [Builder.finish, Builder.recalculate_pos_size, secondChild, testBuilder, baseWidget,
        openStore, PersistentState.default, size, pos, Point.round, roundAway]
      norm_num

/-- Witness for C5 at a concrete input: the manual-position case at a concrete
builder. -/
theorem claim_C5_cursor_advance_wit :
    (({ testBuilder with manual_pos := true } : Builder).finish mc0).parent
      = ({ testBuilder with manual_pos := true } : Builder).parent :=
  (claim_C5_cursor_advance.1 { testBuilder with manual_pos := true } mc0).1 rfl

/-! ## Claim C6 -/

/-- `testBuilder` with the builder's `visible` flag cleared while its
persistent state remains open. -/
def invisibleBuilder : Builder := { testBuilder with visible := false }

/-- A store whose every entry is closed (`is_open = false`). -/
def closedStore : String → PersistentState :=
  fun _ => { PersistentState.default with is_open := false }

/-- `testBuilder` over a closed persistent entry. -/
def closedBuilder : Builder := { testBuilder with store := closedStore }

/-- C6 counterexample: with `visible = false` but `is_open = true`, the
children closure still runs (`children` never consults the visible flag) and
the widget is not marked hidden by `finish` — only the returned result is the
hidden/default one.  This refutes the claim that a false `visible` flag marks
the widget hidden and prevents the children closure from being invoked. -/
theorem claim_C6_counterexample :
    invisibleBuilder.visible = false
    ∧ invisibleBuilder.childrenStep.ranClosure = true
    ∧ (invisibleBuilder.finish mc0).widget.hidden = false
    ∧ (invisibleBuilder.finish mc0).state = WidgetState.hiddenState := by
  refine ⟨rfl, ?_, ?_, ?_⟩
  · simp [Builder.childrenStep, invisibleBuilder, testBuilder, openStore,
      PersistentState.default]
  · simp [Builder.finish, invisibleBuilder, testBuilder, baseWidget]
  · simp [Builder.finish, invisibleBuilder]

/-- C6 (amended): if the widget's persistent `is_open` is false, the widget is
marked hidden, the children closure is never invoked, and (when the builder is
visible) `finish` marks the widget hidden, leaves the parent untouched,
performs no geometry recomputation and returns the hidden/default result.  If
the builder's `visible` flag is false, `finish` returns the hidden/default
result immediately with the widget and parent unchanged — but it does not mark
the widget hidden, and `children` ignores the `visible` flag entirely. -/
theorem claim_C6_hidden_gating :
    (∀ (b : Builder) (mc : Bool × AnimState × Point),
      (b.store b.widget.id).is_open = false →
      b.childrenStep.ranClosure = false
      ∧ b.childrenStep.builder.widget.hidden = true
      ∧ (b.visible = true →
          (b.finish mc).state = WidgetState.hiddenState
          ∧ (b.finish mc).widget.hidden = true
          ∧ (b.finish mc).parent = b.parent
          ∧ (b.finish mc).recalcCount = 0))
    ∧ (∀ (b : Builder) (mc : Bool × AnimState × Point),
        b.visible = false →
        b.finish mc = { state := WidgetState.hiddenState, widget := b.widget,
                        parent := b.parent, recalcCount := 0 }) := by
  constructor
  · intro b mc ho
    refine ⟨?_, ?_, ?_⟩
    · simp [Builder.childrenStep, ho]
    · simp [Builder.childrenStep, ho]
    · intro hv
      simp [Builder.finish, hv, ho]
  · intro b mc hv
    simp [Builder.finish, hv]

/-- Witness for C6 at a concrete input: a closed persistent entry gates both
`children` and `finish`. -/
theorem claim_C6_hidden_gating_wit :
    closedBuilder.childrenStep.ranClosure = false
    ∧ closedBuilder.childrenStep.builder.widget.hidden = true
    ∧ (closedBuilder.visible = true →
        (closedBuilder.finish mc0).state = WidgetState.hiddenState
        ∧ (closedBuilder.finish mc0).widget.hidden = true
        ∧ (closedBuilder.finish mc0).parent = closedBuilder.parent
        ∧ (closedBuilder.finish mc0).recalcCount = 0) :=
  claim_C6_hidden_gating.1 closedBuilder mc0 rfl

end Thyme
